import Mathlib

/-!
Verification of the aperture photometry / light-curve script in src/aperture_phot.py.

The development shallowly embeds the parts of the script that the claims talk
about: the coordinate identity string of light_curves (line 83), the
per-exposure cross-matching step (lines 90 to 109), the per-target assembly
(lines 81 to 123), the per-extension driver with its catch-all handler
(lines 69 to 77), the filename to timestamp derivation of exposure.__init__
(lines 148 to 149) and the threshold selection of exposure.extension
(lines 151 and 188).  Coordinate and flux values are modelled as integers
in fixed-point units of 10 to the minus 8 degree: every concrete value in
the claims is an exact multiple of that unit, and the comparisons the code
performs (window bounds, nonzeroness, distance ranking) are invariant under
this common scaling.  The third-party routines (DAOfind, WCS, aperture
photometry) are opaque in the source and are modelled as parameters.
-/

set_option maxRecDepth 8000

namespace AperturePhot

/-- The Python exception kinds that the modelled code paths can raise. -/
inductive PyErr where
  | valueError
  | typeError
  | attributeError
deriving DecidableEq

/-- One row of a per-exposure source table.  The table columns are fixed at
line 140 of the source: aperture_sum, xcenter, ycenter, ra, dec. -/
structure SrcRow where
  aperture_sum : ℤ
  xcenter : ℤ
  ycenter : ℤ
  ra : ℤ
  dec : ℤ
deriving DecidableEq

/-! ### Decimal digit strings

Machinery for the Python fixed-point format used at line 83:
format spec 012.8f, that is: 8 forced decimals, and the whole fixed-point
string (decimal point included) zero-padded on the left to 12 characters.
The fuel of 12 in natDigsLE bounds the digit count; every value formatted in
this development is below 10 to the 12, where the model is exact. -/

/-- Little-endian base-10 digits of the second argument; the first argument is
fuel bounding the number of digits produced. -/
def natDigsAux : Nat → Nat → List Nat
  | 0, _ => []
  | _ + 1, 0 => []
  | fuel + 1, n + 1 => ((n + 1) % 10) :: natDigsAux fuel ((n + 1) / 10)

/-- Little-endian base-10 digits, exact for n below 10 to the 12. -/
def natDigsLE (n : Nat) : List Nat := natDigsAux 12 n

/-- Big-endian digits, as Python str renders them (empty for 0). -/
def bigDigs (n : Nat) : List Nat := (natDigsLE n).reverse

/-- Big-endian digits of n, left-padded with zeros to width k (no truncation:
if n has more than k digits they are all kept, as Python padding does). -/
def fixedDigs (k n : Nat) : List Nat :=
  List.replicate (k - (bigDigs n).length) 0 ++ bigDigs n

/-- Value of a little-endian digit list. -/
def valLE : List Nat → Nat
  | [] => 0
  | d :: ds => d + 10 * valLE ds

/-- Value of a big-endian digit list. -/
def valBE (l : List Nat) : Nat := l.foldl (fun a d => 10 * a + d) 0

theorem valLE_natDigsAux : ∀ fuel n, n < 10 ^ fuel → valLE (natDigsAux fuel n) = n := by
  intro fuel
  induction fuel with
  | zero =>
    intro n hn
    have h1 : (10 : Nat) ^ 0 = 1 := pow_zero 10
    have h0 : n = 0 := by omega
    subst h0; rfl
  | succ f ih =>
    intro n hn
    cases n with
    | zero => rfl
    | succ m =>
      have hp : (10 : Nat) ^ (f + 1) = 10 ^ f * 10 := pow_succ 10 f
      have hlt : (m + 1) / 10 < 10 ^ f := by omega
      show valLE ((m + 1) % 10 :: natDigsAux f ((m + 1) / 10)) = m + 1
      rw [valLE, ih _ hlt]
      omega

theorem natDigsAux_lt_ten : ∀ fuel n d, d ∈ natDigsAux fuel n → d < 10 := by
  intro fuel
  induction fuel with
  | zero => intro n d hd; simp [natDigsAux] at hd
  | succ f ih =>
    intro n d hd
    cases n with
    | zero => simp [natDigsAux] at hd
    | succ m =>
      simp only [natDigsAux, List.mem_cons] at hd
      rcases hd with h | h
      · subst h; exact Nat.mod_lt _ (by norm_num)
      · exact ih _ _ h

theorem natDigsAux_length : ∀ fuel n k, n < 10 ^ k → (natDigsAux fuel n).length ≤ k := by
  intro fuel
  induction fuel with
  | zero => intro n k _; simp [natDigsAux]
  | succ f ih =>
    intro n k hn
    cases n with
    | zero => simp [natDigsAux]
    | succ m =>
      cases k with
      | zero =>
        exfalso
        have h1 : (10 : Nat) ^ 0 = 1 := pow_zero 10
        omega
      | succ j =>
        have hp : (10 : Nat) ^ (j + 1) = 10 ^ j * 10 := pow_succ 10 j
        have hlt : (m + 1) / 10 < 10 ^ j := by omega
        simp only [natDigsAux, List.length_cons]
        have := ih ((m + 1) / 10) j hlt
        omega

theorem valBE_fold (l : List Nat) :
    ∀ a, l.foldl (fun x d => 10 * x + d) a = a * 10 ^ l.length + valBE l := by
  induction l with
  | nil => intro a; simp [valBE]
  | cons d ds ih =>
    intro a
    simp only [valBE, List.foldl_cons, List.length_cons]
    rw [ih (10 * a + d), ih (10 * 0 + d)]
    ring

theorem foldl_zeros (j : Nat) : (List.replicate j 0).foldl (fun x d => 10 * x + d) 0 = 0 := by
  induction j with
  | zero => rfl
  | succ i ih =>
    simp only [List.replicate_succ, List.foldl_cons]
    simpa using ih

theorem valBE_pad (j : Nat) (l : List Nat) : valBE (List.replicate j 0 ++ l) = valBE l := by
  unfold valBE
  rw [List.foldl_append, foldl_zeros]

theorem valBE_reverse (l : List Nat) : valBE l.reverse = valLE l := by
  induction l with
  | nil => rfl
  | cons d ds ih =>
    simp only [List.reverse_cons, valLE]
    unfold valBE
    rw [List.foldl_append]
    simp only [List.foldl_cons, List.foldl_nil]
    unfold valBE at ih
    rw [ih]
    ring

theorem valBE_fixedDigs (k n : Nat) (hn : n < 10 ^ 12) : valBE (fixedDigs k n) = n := by
  unfold fixedDigs bigDigs
  rw [valBE_pad, valBE_reverse]
  exact valLE_natDigsAux 12 n hn

theorem fixedDigs_length (k n : Nat) (h : n < 10 ^ k) : (fixedDigs k n).length = k := by
  unfold fixedDigs bigDigs
  have hlen : (natDigsLE n).length ≤ k := natDigsAux_length 12 n k h
  simp only [List.length_append, List.length_replicate, List.length_reverse]
  omega

theorem fixedDigs_lt_ten (k n d : Nat) (hd : d ∈ fixedDigs k n) : d < 10 := by
  unfold fixedDigs bigDigs at hd
  rcases List.mem_append.mp hd with h | h
  · have := List.eq_of_mem_replicate h; omega
  · exact natDigsAux_lt_ten 12 n d (List.mem_reverse.mp h)

/-- The character Python str uses for the digit d (the last arm is only
reached with d = 9; all uses keep d below 10). -/
def dchar : Nat → Char
  | 0 => '0'
  | 1 => '1'
  | 2 => '2'
  | 3 => '3'
  | 4 => '4'
  | 5 => '5'
  | 6 => '6'
  | 7 => '7'
  | 8 => '8'
  | _ => '9'

/-- Numeric value of a digit character. -/
def charVal (c : Char) : Nat := c.toNat - 48

/-- Value of a big-endian string of digit characters. -/
def blockVal (l : List Char) : Nat := l.foldl (fun a c => 10 * a + charVal c) 0

theorem charVal_dchar : ∀ d, d < 10 → charVal (dchar d) = d := by decide

theorem blockVal_map_aux (l : List Nat) (h : ∀ d ∈ l, d < 10) :
    ∀ a, (l.map dchar).foldl (fun x c => 10 * x + charVal c) a
          = l.foldl (fun x d => 10 * x + d) a := by
  induction l with
  | nil => intro a; rfl
  | cons d ds ih =>
    intro a
    simp only [List.map_cons, List.foldl_cons]
    rw [charVal_dchar d (h d (by simp))]
    exact ih (fun x hx => h x (by simp [hx])) (10 * a + d)

theorem blockVal_map (l : List Nat) (h : ∀ d ∈ l, d < 10) :
    blockVal (l.map dchar) = valBE l :=
  blockVal_map_aux l h 0

/-! ### The identity-string encoding, line 83 of the source

Python renders a nonnegative value v with format spec 012.8f as the decimal
integer part, a point, then exactly 8 decimal digits, the whole string
left-padded with the digit 0 to 12 characters.  fmt012_8 takes the value
scaled by 10 to the 8 (so it is exact); for integer parts up to 999 the
integer field is 3 characters, which matches the Python padding, and larger
integer parts are kept whole, which also matches Python. -/

/-- The 012.8f rendering of the scaled value q (q counts units of 10 to the
minus 8).  Exact for q below 10 to the 12. -/
def fmt012_8 (q : Nat) : List Char :=
  (fixedDigs 3 (q / 100000000)).map dchar ++ '.' :: (fixedDigs 8 (q % 100000000)).map dchar

/-- Line 83: the identity string of a target, on coordinates scaled by 10 to
the 8: the rendered RA magnitude, an explicit sign character for Dec, then
the rendered magnitude of Dec. -/
def encodeId (ra : Nat) (dec : Int) : List Char :=
  fmt012_8 ra ++ (if dec < 0 then '-' else '+') :: fmt012_8 dec.natAbs

theorem fmt012_8_length (q : Nat) (h : q < 10 ^ 11) : (fmt012_8 q).length = 12 := by
  unfold fmt012_8
  have hpw : (10 : Nat) ^ 11 = 100000000000 := by norm_num
  have hp3 : (10 : Nat) ^ 3 = 1000 := by norm_num
  have hp8 : (10 : Nat) ^ 8 = 100000000 := by norm_num
  have h1 : q / 100000000 < 10 ^ 3 := by omega
  have h2 : q % 100000000 < 10 ^ 8 := by omega
  simp only [List.length_append, List.length_map, List.length_cons,
    fixedDigs_length 3 _ h1, fixedDigs_length 8 _ h2]

theorem fmt012_8_inj (q1 q2 : Nat) (h1 : q1 < 10 ^ 11) (h2 : q2 < 10 ^ 11)
    (h : fmt012_8 q1 = fmt012_8 q2) : q1 = q2 := by
  have hpw : (10 : Nat) ^ 11 = 100000000000 := by norm_num
  have hp3 : (10 : Nat) ^ 3 = 1000 := by norm_num
  have hp8 : (10 : Nat) ^ 8 = 100000000 := by norm_num
  have hp12 : (10 : Nat) ^ 12 = 1000000000000 := by norm_num
  have e1 : q1 / 100000000 < 10 ^ 3 := by omega
  have e2 : q2 / 100000000 < 10 ^ 3 := by omega
  have f1 : q1 % 100000000 < 10 ^ 8 := by omega
  have f2 : q2 % 100000000 < 10 ^ 8 := by omega
  unfold fmt012_8 at h
  have lenA : ((fixedDigs 3 (q1 / 100000000)).map dchar).length
      = ((fixedDigs 3 (q2 / 100000000)).map dchar).length := by
    simp only [List.length_map, fixedDigs_length 3 _ e1, fixedDigs_length 3 _ e2]
  obtain ⟨hA, hB⟩ := List.append_inj h lenA
  have hBtail : (fixedDigs 8 (q1 % 100000000)).map dchar
      = (fixedDigs 8 (q2 % 100000000)).map dchar := (List.cons.inj hB).2
  have hip : q1 / 100000000 = q2 / 100000000 := by
    have hv := congrArg blockVal hA
    rw [blockVal_map _ (fun d hd => fixedDigs_lt_ten 3 _ d hd),
        blockVal_map _ (fun d hd => fixedDigs_lt_ten 3 _ d hd),
        valBE_fixedDigs 3 _ (by omega), valBE_fixedDigs 3 _ (by omega)] at hv
    exact hv
  have hfp : q1 % 100000000 = q2 % 100000000 := by
    have hv := congrArg blockVal hBtail
    rw [blockVal_map _ (fun d hd => fixedDigs_lt_ten 8 _ d hd),
        blockVal_map _ (fun d hd => fixedDigs_lt_ten 8 _ d hd),
        valBE_fixedDigs 8 _ (by omega), valBE_fixedDigs 8 _ (by omega)] at hv
    exact hv
  omega

/-- C1 counterexample: at the claim's own input RA=120.5, Dec=-45.25
(scaled by 10 to the 8), the encoding of line 83 does not produce
the string claimed.  The 012.8f format pads the whole 12-character
fixed-point field, so 120.5 renders as 120.50000000 with no leading zero,
and 45.25 renders as 045.25000000 with one. -/
theorem C1_counterexample :
    String.mk (encodeId 12050000000 (-4525000000)) ≠ "0120.50000000-0045.25000000" := by
  decide

/-- C1 (amended): the identity-string encoding of line 83 is deterministic
and injective over the tested coordinate range (coordinates that are exact
multiples of 10 to the minus 8 with magnitude below 1000, which covers
RA in [0,360) and Dec in [-90,90]); each coordinate renders as a
12-character zero-padded fixed-point magnitude with 8 decimals, with an
explicit sign character for Dec; RA=120.5, Dec=-45.25 encodes to
120.50000000-045.25000000. -/
theorem C1_encode_amended (r1 r2 : Nat) (d1 d2 : Int)
    (hr1 : r1 < 10 ^ 11) (hr2 : r2 < 10 ^ 11)
    (hd1 : d1.natAbs < 10 ^ 11) (hd2 : d2.natAbs < 10 ^ 11)
    (h : encodeId r1 d1 = encodeId r2 d2) :
    (r1 = r2 ∧ d1 = d2) ∧
      String.mk (encodeId 12050000000 (-4525000000)) = "120.50000000-045.25000000" := by
  have lenfix : (fmt012_8 r1).length = (fmt012_8 r2).length := by
    rw [fmt012_8_length r1 hr1, fmt012_8_length r2 hr2]
  unfold encodeId at h
  obtain ⟨hra, hrest⟩ := List.append_inj h lenfix
  have hr : r1 = r2 := fmt012_8_inj _ _ hr1 hr2 hra
  have hsign : (if d1 < 0 then '-' else '+') = (if d2 < 0 then '-' else '+') :=
    (List.cons.inj hrest).1
  have habs : d1.natAbs = d2.natAbs :=
    fmt012_8_inj _ _ hd1 hd2 (List.cons.inj hrest).2
  have hsgn : d1 < 0 ↔ d2 < 0 := by
    constructor
    · intro hneg
      by_contra hpos
      rw [if_pos hneg, if_neg hpos] at hsign
      exact absurd hsign (by decide)
    · intro hneg
      by_contra hpos
      rw [if_neg hpos, if_pos hneg] at hsign
      exact absurd hsign (by decide)
  refine ⟨⟨hr, by omega⟩, by decide⟩

/-- Witness for C1: the amended theorem applied at the concrete encoding of
RA=120.5, Dec=-45.25. -/
theorem C1_encode_witness :
    (12050000000 < 10 ^ 11 ∧ ((-4525000000 : Int)).natAbs < 10 ^ 11) ∧
    ((12050000000 = 12050000000 ∧ ((-4525000000 : Int) = -4525000000)) ∧
      String.mk (encodeId 12050000000 (-4525000000)) = "120.50000000-045.25000000") :=
  ⟨⟨by norm_num, by norm_num⟩,
   C1_encode_amended 12050000000 12050000000 (-4525000000) (-4525000000)
     (by norm_num) (by norm_num) (by norm_num) (by norm_num) rfl⟩

/-! ### Filename handling and timestamp parsing, lines 148 to 149

Line 148 computes
  date_str = basename.replace(the suffix literal, empty).replace(kplr, empty)
with Python str.replace, which deletes every non-overlapping occurrence of
the pattern scanning left to right, not only a leading or trailing one.
Line 149 parses date_str with time.strptime and format %Y%j%H%M%S. -/

/-- Does pat occur at the head of cs? -/
def headMatches (pat cs : List Char) : Bool := decide (cs.take pat.length = pat)

/-- Delete every non-overlapping occurrence of pat, scanning left to right,
exactly as Python str.replace with an empty replacement does.  The Nat
argument is fuel; with fuel at least the list length and a non-empty pat the
scan completes. -/
def replaceDel (pat : List Char) : Nat → List Char → List Char
  | 0, l => l
  | _ + 1, [] => []
  | fuel + 1, c :: rest =>
    if headMatches pat (c :: rest) then replaceDel pat fuel (rest.drop (pat.length - 1))
    else c :: replaceDel pat fuel rest

/-- Python s.replace(pat, empty string). -/
def pyReplaceEmpty (s pat : String) : String :=
  String.mk (replaceDel pat.toList s.toList.length s.toList)

/-- Line 148: derive the exposure identity string from the file basename. -/
def date_str (basename : String) : String :=
  pyReplaceEmpty (pyReplaceEmpty basename "_ffi-cal.fits") "kplr"

/-- The fields of the parsed timestamp that the format string mentions
(Python struct_time has further fields derived from these). -/
structure struct_time where
  tm_year : Nat
  tm_yday : Nat
  tm_hour : Nat
  tm_min : Nat
  tm_sec : Nat
deriving DecidableEq

/-- Is c an ASCII decimal digit? -/
def isDig (c : Char) : Bool := decide (48 ≤ c.toNat) && decide (c.toNat ≤ 57)

/-- One candidate split of the input for format %Y%j%H%M%S: the year field is
exactly 4 digits; jl, hl, ml, sl are the widths tried for day-of-year, hour,
minute and second.  Field ranges follow the CPython strptime patterns:
day-of-year 1 to 366, hour 0 to 23, minute 0 to 59, second 0 to 61.  The
whole string must be consumed, as strptime requires. -/
def parseWith (cs : List Char) (jl hl ml sl : Nat) : Option struct_time :=
  if cs.length = 4 + jl + hl + ml + sl then
    let y := cs.take 4
    let j := (cs.drop 4).take jl
    let h := (cs.drop (4 + jl)).take hl
    let mi := (cs.drop (4 + jl + hl)).take ml
    let se := (cs.drop (4 + jl + hl + ml)).take sl
    if y.all isDig && j.all isDig && h.all isDig && mi.all isDig && se.all isDig
        && decide (1 ≤ blockVal j) && decide (blockVal j ≤ 366)
        && decide (blockVal h ≤ 23) && decide (blockVal mi ≤ 59)
        && decide (blockVal se ≤ 61) then
      some ⟨blockVal y, blockVal j, blockVal h, blockVal mi, blockVal se⟩
    else none
  else none

/-- The field widths CPython strptime can assign (day-of-year takes 1 to 3
digits, the time fields 1 or 2), in the backtracking order of a greedy
regex: earlier fields prefer longer matches, the rightmost field backtracks
first.  Only which split succeeds matters below; for a 13-digit input the
only split that consumes everything is the first one. -/
def lenChoices : List (Nat × Nat × Nat × Nat) :=
  [(3, 2, 2, 2), (3, 2, 2, 1), (3, 2, 1, 2), (3, 2, 1, 1),
   (3, 1, 2, 2), (3, 1, 2, 1), (3, 1, 1, 2), (3, 1, 1, 1),
   (2, 2, 2, 2), (2, 2, 2, 1), (2, 2, 1, 2), (2, 2, 1, 1),
   (2, 1, 2, 2), (2, 1, 2, 1), (2, 1, 1, 2), (2, 1, 1, 1),
   (1, 2, 2, 2), (1, 2, 2, 1), (1, 2, 1, 2), (1, 2, 1, 1),
   (1, 1, 2, 2), (1, 1, 2, 1), (1, 1, 1, 2), (1, 1, 1, 1)]

/-- Line 149: time.strptime(date_str, %Y%j%H%M%S), returning none where
Python raises ValueError. -/
def strptimeYjHMS (s : String) : Option struct_time :=
  (lenChoices.map fun c => parseWith s.toList c.1 c.2.1 c.2.2.1 c.2.2.2).findSome? id

/-- Lines 140 to 149: constructing an exposure.  The source table starts
empty (line 140); the identity string and timestamp come from the basename.
A parse failure at line 149 raises ValueError, which __init__ does not
handle. -/
structure exposure where
  date_str : String
  datetime : struct_time
  source_table : List SrcRow
deriving DecidableEq

def mkExposure (basename : String) : Except PyErr exposure :=
  match strptimeYjHMS (date_str basename) with
  | some t => .ok ⟨date_str basename, t, []⟩
  | none => .error PyErr.valueError

/-! ### The per-exposure extension scan, lines 69 to 77

Line 71 fixes the extension index list to the single index 3.  Line 73 runs
ex.extension(idx) inside try, and line 74 catches every exception and
discards it.  ex.extension only assigns the merged table back to the
exposure as its final data step (line 209), so a step that raises leaves the
accumulated table unchanged; the whole method is modelled as a fallible
table transformer, since its inner detection, WCS and photometry calls are
opaque library routines. -/

def extIndices : List Nat := [3]

def processExtensions (step : Nat → List SrcRow → Except PyErr (List SrcRow))
    (idxs : List Nat) (t : List SrcRow) : List SrcRow :=
  idxs.foldl (fun acc i => match step i acc with | .ok t2 => t2 | .error _ => acc) t

/-- Lines 66 to 77 for one file: construct the exposure (outside any try
block, so a construction failure propagates), then scan the extension list
with the catch-all handler, and record the table under the date string. -/
def runExposureFile (step : Nat → List SrcRow → Except PyErr (List SrcRow))
    (basename : String) : Except PyErr (String × List SrcRow) :=
  match mkExposure basename with
  | .error e => .error e
  | .ok ex => .ok (ex.date_str, processExtensions step extIndices ex.source_table)

theorem processExtensions_append (step : Nat → List SrcRow → Except PyErr (List SrcRow))
    (l1 l2 : List Nat) (t : List SrcRow) :
    processExtensions step (l1 ++ l2) t = processExtensions step l2 (processExtensions step l1 t) := by
  unfold processExtensions
  simp [List.foldl_append]

/-- C6: any exception raised while processing a single extension is caught
and silently discarded by the driver: a failing extension leaves the
exposure's accumulated source table exactly as it was before that
extension, the scan of the remaining extensions continues from that table,
and the per-file run still returns a table (no step failure escapes). -/
theorem C6_extension_failures_isolated
    (step : Nat → List SrcRow → Except PyErr (List SrcRow))
    (pre post : List Nat) (i : Nat) (e : PyErr) (t : List SrcRow)
    (basename : String) (ex : exposure)
    (hfail : step i (processExtensions step pre t) = .error e)
    (hmk : mkExposure basename = .ok ex) :
    processExtensions step (pre ++ i :: post) t
        = processExtensions step post (processExtensions step pre t) ∧
    runExposureFile step basename
        = .ok (ex.date_str, processExtensions step extIndices ex.source_table) := by
  constructor
  · rw [processExtensions_append]
    unfold processExtensions at hfail ⊢
    simp only [List.foldl_cons, hfail]
  · unfold runExposureFile
    rw [hmk]

/-- A sample extension step: index 0 always raises, any other index appends
one photometry row. -/
def c6step : Nat → List SrcRow → Except PyErr (List SrcRow)
  | 0, _ => .error PyErr.valueError
  | _ + 1, t => .ok (t ++ [⟨1, 1, 1, 1, 1⟩])

/-- Witness for C6: a concrete scan in which extension 0 fails between
extensions 1 and 2. -/
theorem C6_witness :
    (c6step 0 (processExtensions c6step [1] []) = .error PyErr.valueError ∧
     mkExposure "kplr2009170043915_ffi-cal.fits"
        = .ok ⟨"2009170043915", ⟨2009, 170, 4, 39, 15⟩, []⟩) ∧
    (processExtensions c6step ([1] ++ 0 :: [2]) []
        = processExtensions c6step [2] (processExtensions c6step [1] []) ∧
     runExposureFile c6step "kplr2009170043915_ffi-cal.fits"
        = .ok ("2009170043915", processExtensions c6step extIndices ([] : List SrcRow))) :=
  ⟨⟨by rfl, by rfl⟩,
   C6_extension_failures_isolated c6step [1] [2] 0 PyErr.valueError []
     "kplr2009170043915_ffi-cal.fits" ⟨"2009170043915", ⟨2009, 170, 4, 39, 15⟩, []⟩
     (by rfl) (by rfl)⟩

/-- C10: the driver attempts exactly the extension at index 3 for every
exposure file (line 71): the table produced by the per-file scan is fully
determined by the single attempt of extension 3 on the initial table, so no
other extension contributes photometry rows. -/
theorem C10_only_extension_three
    (step : Nat → List SrcRow → Except PyErr (List SrcRow)) (t : List SrcRow) :
    processExtensions step extIndices t =
      match step 3 t with
      | .ok t2 => t2
      | .error _ => t := rfl

/-- Modelled from the spec and claim wording for comparison with date_str:
the claim describes deriving the identity string by stripping a leading
kplr prefix and a trailing _ffi-cal.fits suffix, rather than deleting every
occurrence as str.replace does. -/
def dropHeadIf (pat cs : List Char) : List Char :=
  if cs.take pat.length = pat then cs.drop pat.length else cs

def dropTailIf (pat cs : List Char) : List Char :=
  (dropHeadIf pat.reverse cs.reverse).reverse

def claimStrippedForm (s : String) : String :=
  String.mk (dropHeadIf "kplr".toList (dropTailIf "_ffi-cal.fits".toList s.toList))

/-- C9 counterexample: the filename 2009170043915kplr has a stripped form
(in the claim's prefix/suffix sense) that does not match the timestamp
pattern, yet constructing the exposure succeeds, because line 148 deletes
the trailing kplr occurrence too; so the claim's universal statement is
false as written. -/
theorem C9_counterexample :
    strptimeYjHMS (claimStrippedForm "2009170043915kplr") = none ∧
    date_str "2009170043915kplr" = "2009170043915" ∧
    mkExposure "2009170043915kplr"
      = .ok ⟨"2009170043915", ⟨2009, 170, 4, 39, 15⟩, []⟩ :=
  ⟨by rfl, by rfl, by rfl⟩

/-- C9 (amended): constructing an exposure derives its identity string by
deleting every occurrence of _ffi-cal.fits and then of kplr from the
filename (for well-formed names this equals stripping the prefix and the
suffix) and parses the result as year + day-of-year + HHMMSS; for every
filename whose processed form fails to parse, timestamp parsing raises an
error, and that error propagates as a fatal failure of the whole per-file
run, since construction happens outside the driver's catch-and-ignore
scope. -/
theorem C9_parse_failure_fatal (basename : String)
    (step : Nat → List SrcRow → Except PyErr (List SrcRow))
    (h : strptimeYjHMS (date_str basename) = none) :
    mkExposure basename = .error PyErr.valueError ∧
    runExposureFile step basename = .error PyErr.valueError := by
  have hmk : mkExposure basename = .error PyErr.valueError := by
    unfold mkExposure
    rw [h]
  refine ⟨hmk, ?_⟩
  unfold runExposureFile
  rw [hmk]

/-- A step that never fails, for instantiating driver theorems. -/
def noopStep : Nat → List SrcRow → Except PyErr (List SrcRow) := fun _ t => .ok t

/-- Witness for C9: a filename that does not match the pattern makes
construction, and the per-file run, fail. -/
theorem C9_parse_witness :
    strptimeYjHMS (date_str "garbage.fits") = none ∧
    (mkExposure "garbage.fits" = .error PyErr.valueError ∧
     runExposureFile noopStep "garbage.fits" = .error PyErr.valueError) :=
  ⟨by rfl, C9_parse_failure_fatal "garbage.fits" noopStep (by rfl)⟩


/-! ### The cross-matcher, lines 81 to 123

Per catalog target (RA, DEC), the code filters each exposure table's ra
column and dec column independently (lines 90 to 92, both bounds strict),
pairs the two filtered columns positionally (line 95), and, when both
filtered columns are truthy under the numpy any (some entry nonzero,
line 97), queries a k-d tree of the pairs for the nearest neighbour of the
target (line 102) and reads the flux at that index from the UNFILTERED
aperture_sum column (line 103).  Line 107 appends unconditionally; the
distance test of line 106 is commented out and match_radius is never read.

Modelling notes, each traceable in the source:
  - positional pairing is List.zip; when the two filtered columns have
    different lengths, np.array of the ragged pair is an object array that
    cKDTree rejects, modelled as a ValueError;
  - line 77 stores only ex.source_table under the key ex.date_str, and
    line 87 binds exp to that stored astropy Table, which has no datetime
    attribute (and datetime is not one of its columns), so the exp.datetime
    read at line 107 raises AttributeError whenever a match is found and no
    pair is ever appended: buildLCLiteral is the literal model of this
    fold.  buildLCAux is the charitable reading in which the read yields
    the datetime of the exposure the stored table came from (line 149
    derives it deterministically from the dictionary key); it is kept only
    so that the demonstrations of lines 112 to 121 below can exhibit the
    key, catalog row and file names those lines reference, and every claim
    about whether the append happens is settled against buildLCLiteral;
  - line 87 rebinds the variable name, so after the exposure loop it holds
    the LAST exposure key, not the identity string of line 83; lines 114,
    119 and 120 then use that rebound name;
  - line 114 reads the catalog row at the fixed index 2, not the row of the
    current target (and iterates KIC.dtype.names, which is None for the
    plain coordinate array built by get_KIC, a TypeError in a literal run;
    line 118 calls .T on a Python list, an AttributeError; targetStep,
    built on the charitable fold, records the key, row and plot names those
    lines use and is relied on only where its smoothing is disclosed). -/

/-- Line 91: the ra column filtered to the open window around RA. -/
def filteredRA (sr RA : ℤ) (tbl : List SrcRow) : List ℤ :=
  (tbl.map fun r => r.ra).filter fun x => decide (x < RA + sr) && decide (x > RA - sr)

/-- Line 92: the dec column filtered to the open window around DEC. -/
def filteredDec (sr DEC : ℤ) (tbl : List SrcRow) : List ℤ :=
  (tbl.map fun r => r.dec).filter fun x => decide (x < DEC + sr) && decide (x > DEC - sr)

/-- Line 95: the candidate coordinate pairs, pairing the two filtered
columns positionally. -/
def detectionsOf (sr RA DEC : ℤ) (tbl : List SrcRow) : List (ℤ × ℤ) :=
  (filteredRA sr RA tbl).zip (filteredDec sr DEC tbl)

/-- Line 97: the Python builtin any over a numpy float array is true iff
some entry is nonzero. -/
def anyTruthy (l : List ℤ) : Bool := l.any fun x => decide (x ≠ 0)

/-- Squared Euclidean distance in (ra, dec) coordinates, as the k-d tree
ranks neighbours. -/
def sqDist (p q : ℤ × ℤ) : ℤ :=
  (p.1 - q.1) * (p.1 - q.1) + (p.2 - q.2) * (p.2 - q.2)

/-- Running nearest-neighbour scan: i is the index of the head of the
remaining list, bi and bd the best index and squared distance so far. -/
def nearestAux (t : ℤ × ℤ) : List (ℤ × ℤ) → Nat → Nat → ℤ → Nat
  | [], _, bi, _ => bi
  | p :: rest, i, bi, bd =>
    if sqDist t p < bd then nearestAux t rest (i + 1) i (sqDist t p)
    else nearestAux t rest (i + 1) bi bd

/-- Line 102: the index the k-d tree query returns (the first index of
minimal distance; all concrete instances below are tie-free). -/
def nearestIdx (t : ℤ × ℤ) : List (ℤ × ℤ) → Nat
  | [] => 0
  | p :: rest => nearestAux t rest 1 0 (sqDist t p)

/-- Lines 90 to 109 for one exposure table: none when the truthiness guard
of line 97 fails, otherwise the flux value that line 103 reads: the entry
of the unfiltered aperture_sum column at the nearest-candidate index. -/
def matchExposure (sr RA DEC : ℤ) (tbl : List SrcRow) : Except PyErr (Option ℤ) :=
  if anyTruthy (filteredRA sr RA tbl) && anyTruthy (filteredDec sr DEC tbl) then
    if (filteredRA sr RA tbl).length = (filteredDec sr DEC tbl).length then
      .ok (some ((tbl.map fun r => r.aperture_sum).getD
        (nearestIdx (RA, DEC) (detectionsOf sr RA DEC tbl)) 0))
    else .error PyErr.valueError
  else .ok none

/-- Lines 87 to 109 as literally executed: whenever the guard passes and a
flux is found, line 107 evaluates exp.datetime on the stored Table, which
raises AttributeError before anything is appended, so the fold aborts at
the first successful match. -/
def buildLCLiteral (sr RA DEC : ℤ) (acc : List (struct_time × ℤ)) :
    List exposure → Except PyErr (List (struct_time × ℤ))
  | [] => .ok acc
  | ex :: rest =>
    match matchExposure sr RA DEC ex.source_table with
    | .ok (some _) => .error PyErr.attributeError
    | .ok none => buildLCLiteral sr RA DEC acc rest
    | .error e => .error e

/-- Lines 87 to 109 under the charitable reading of the line 107 attribute
read (the datetime of the exposure the stored table came from): the pair
(exp.datetime, magnitude) is appended whenever the guard passes.  Kept only
to exhibit what lines 112 to 121 reference; see the modelling notes and
buildLCLiteral. -/
def buildLCAux (sr RA DEC : ℤ) (acc : List (struct_time × ℤ)) :
    List exposure → Except PyErr (List (struct_time × ℤ))
  | [] => .ok acc
  | ex :: rest =>
    match matchExposure sr RA DEC ex.source_table with
    | .ok (some f) => buildLCAux sr RA DEC (acc ++ [(ex.datetime, f)]) rest
    | .ok none => buildLCAux sr RA DEC acc rest
    | .error e => .error e

def buildLightCurve (sr RA DEC : ℤ) (exps : List exposure) :
    Except PyErr (List (struct_time × ℤ)) :=
  buildLCAux sr RA DEC [] exps

/-- Line 83: the identity string of a target.  RA is nonnegative over the
catalog range [0, 360), so its magnitude is its value. -/
def identityName (RA DEC : ℤ) : String :=
  String.mk (encodeId RA.toNat DEC)

/-- The value of the variable name after the exposure loop: line 87 rebinds
it to each dictionary key in turn, so it ends as the last exposure key, and
only an empty exposure dictionary leaves the line 83 identity string. -/
def nameAfterLoop (exps : List exposure) (source : ℤ × ℤ) : String :=
  (exps.map fun ex => ex.date_str).getLastD (identityName source.1 source.2)

/-- What lines 112 to 121 produce for one target: the key the record is
stored under in sources, the catalog row stored (line 114 reads KIC[2]),
the plot title and saved file name, and the accumulated light curve. -/
structure TargetOutcome where
  storedKey : Option String
  storedRecord : Option (ℤ × ℤ)
  plotTitle : Option String
  plotFile : Option String
  curve : List (struct_time × ℤ)
deriving DecidableEq

/-- Lines 81 to 123 for one catalog target.  match_radius is a parameter of
light_curves (line 41) and is bound here to mirror the signature; the body
never reads it, as in the source (the leading underscore marks it unread). -/
def targetStep (_match_radius search_radius : ℤ) (KIC : List (ℤ × ℤ))
    (exps : List exposure) (source : ℤ × ℤ) : Except PyErr TargetOutcome :=
  match buildLightCurve search_radius source.1 source.2 exps with
  | .error e => .error e
  | .ok curve =>
    if curve.isEmpty then .ok ⟨none, none, none, none, curve⟩
    else
      .ok ⟨some (nameAfterLoop exps source), some (KIC.getD 2 (0, 0)),
           some (nameAfterLoop exps source),
           some ("./plots/" ++ nameAfterLoop exps source ++ ".png"), curve⟩

def wexp : exposure :=
  ⟨"2009170043915", ⟨2009, 170, 4, 39, 15⟩, [⟨5, 0, 0, 50000000, 50000000⟩]⟩

/-- C2 (code bug demonstration): at an exposure whose guard passes, the
match itself succeeds (flux 5 found, with no distance test anywhere: line
106 is commented out), but the literal fold aborts with AttributeError at
the line 107 exp.datetime read on the stored Table, so the pair the claim
says is appended is never appended.  The part of the claim that holds is
that match_radius can never affect whether a pair is appended: the literal
fold never reads it (it is not even in scope at lines 87 to 109), and the
per-target result is syntactically independent of it. -/
theorem C2_append_crashes :
    matchExposure 100000 50000000 50000000 wexp.source_table = .ok (some 5) ∧
    buildLCLiteral 100000 50000000 50000000 [] [wexp] = .error PyErr.attributeError ∧
    targetStep 500000 100000 [] [wexp] (50000000, 50000000)
      = targetStep 1000000 100000 [] [wexp] (50000000, 50000000) :=
  ⟨by rfl, by rfl, rfl⟩

/-- The condition of the line 91 filter as a predicate. -/
abbrev inRAWindow (sr RA x : ℤ) : Prop := x < RA + sr ∧ x > RA - sr

/-- The condition of the line 92 filter as a predicate. -/
abbrev inDecWindow (sr DEC x : ℤ) : Prop := x < DEC + sr ∧ x > DEC - sr

def dummyRow : SrcRow := ⟨0, 0, 0, 0, 0⟩

/-- Table exhibiting the independent-window defect, for a target at
(10, 20) degrees with search_radius 0.001 degree: row 0 is at
(10.01, 20.0005) degrees and passes only the dec filter; row 1 is at
(10.0005, 20.01) degrees and passes only the ra filter. -/
def c3tbl : List SrcRow :=
  [⟨100, 0, 0, 1001000000, 2000050000⟩, ⟨200, 0, 0, 1000050000, 2001000000⟩]

/-- C3: the RA window and the Dec window are applied independently to the
separate ra and dec columns, so for this exposure table the candidate list
contains the pair (10.0005, 20.0005) degrees, formed from the ra of row 1
and the dec of row 0 — two different detection rows, matching no row of the
table — while each of the two rows lies inside the union but outside the
intersection of the two windows. -/
theorem C3_cross_row_candidate :
    detectionsOf 100000 1000000000 2000000000 c3tbl = [(1000050000, 2000050000)] ∧
    (∀ r ∈ c3tbl, ¬(r.ra = 1000050000 ∧ r.dec = 2000050000)) ∧
    (c3tbl.getD 1 dummyRow).ra = 1000050000 ∧ (c3tbl.getD 0 dummyRow).dec = 2000050000 ∧
    (inRAWindow 100000 1000000000 (c3tbl.getD 1 dummyRow).ra ∧
      ¬ inDecWindow 100000 2000000000 (c3tbl.getD 1 dummyRow).dec) ∧
    (¬ inRAWindow 100000 1000000000 (c3tbl.getD 0 dummyRow).ra ∧
      inDecWindow 100000 2000000000 (c3tbl.getD 0 dummyRow).dec) := by
  decide

/-- Table exhibiting the flux misassociation of line 103, same target and
radius as c3tbl: row 0 at (10.01, 20.01) degrees fails both filters, row 1
at (10.0005, 20.0005) degrees passes both, so the only candidate is row 1
itself, at filtered index 0; but the flux is read from the unfiltered
column at index 0, which is row 0. -/
def c4tbl : List SrcRow :=
  [⟨100, 0, 0, 1001000000, 2001000000⟩, ⟨200, 0, 0, 1000050000, 2000050000⟩]

/-- C4 (code bug demonstration): the nearest (and only) candidate is row 1,
whose aperture_sum is 200, yet the matcher returns 100 — the aperture_sum
of row 0, the row sharing the filtered index in the UNFILTERED table — so
the appended flux is not the flux of the matched detection. -/
theorem C4_flux_misassociation :
    matchExposure 100000 1000000000 2000000000 c4tbl = .ok (some 100) ∧
    detectionsOf 100000 1000000000 2000000000 c4tbl
      = [((c4tbl.getD 1 dummyRow).ra, (c4tbl.getD 1 dummyRow).dec)] ∧
    (c4tbl.getD 1 dummyRow).aperture_sum = 200 ∧ ((100 : ℤ) ≠ 200) :=
  ⟨by rfl, by rfl, by rfl, by decide⟩

/-- An empty candidate pair list (the line 95 zip is empty exactly when at
least one filtered column is) makes the line 97 guard false, so the
exposure contributes nothing and raises nothing. -/
theorem matchExposure_none_of_no_candidates (sr RA DEC : ℤ) (tbl : List SrcRow)
    (h : detectionsOf sr RA DEC tbl = []) :
    matchExposure sr RA DEC tbl = .ok none := by
  unfold detectionsOf at h
  have hor : filteredRA sr RA tbl = [] ∨ filteredDec sr DEC tbl = [] := by
    cases hra : filteredRA sr RA tbl with
    | nil => exact Or.inl rfl
    | cons x xs =>
      cases hdec : filteredDec sr DEC tbl with
      | nil => exact Or.inr rfl
      | cons y ys =>
        rw [hra, hdec] at h
        simp at h
  unfold matchExposure
  rcases hor with hra | hdec
  · rw [hra]
    simp [anyTruthy]
  · rw [hdec]
    simp [anyTruthy]

theorem buildLC_empty (sr RA DEC : ℤ) :
    ∀ exps : List exposure,
      (∀ ex ∈ exps, detectionsOf sr RA DEC ex.source_table = []) →
      ∀ acc, buildLCAux sr RA DEC acc exps = .ok acc ∧
        buildLCLiteral sr RA DEC acc exps = .ok acc := by
  intro exps
  induction exps with
  | nil => intro _ acc; exact ⟨rfl, rfl⟩
  | cons e rest ih =>
    intro h acc
    have hm : matchExposure sr RA DEC e.source_table = .ok none :=
      matchExposure_none_of_no_candidates sr RA DEC e.source_table (h e (by simp))
    constructor
    · simp only [buildLCAux, hm]
      exact (ih (fun x hx => h x (by simp [hx])) acc).1
    · simp only [buildLCLiteral, hm]
      exact (ih (fun x hx => h x (by simp [hx])) acc).2

/-- C5: a target whose filtered candidate set (the line 95 pair list, empty
exactly when either filtered column is empty) is empty in every exposure
gets no entry in the results mapping, no plot title, no saved output file
and an empty light curve, and the run raises no error — also under the
literal model of the append path. -/
theorem C5_no_candidates_no_output (mr sr : ℤ) (KIC : List (ℤ × ℤ))
    (exps : List exposure) (src : ℤ × ℤ)
    (h : ∀ ex ∈ exps, detectionsOf sr src.1 src.2 ex.source_table = []) :
    targetStep mr sr KIC exps src = .ok ⟨none, none, none, none, []⟩ ∧
    buildLCLiteral sr src.1 src.2 [] exps = .ok [] := by
  have hbc := buildLC_empty sr src.1 src.2 exps h []
  have h1 : buildLightCurve sr src.1 src.2 exps = .ok [] := hbc.1
  refine ⟨?_, hbc.2⟩
  unfold targetStep
  rw [h1]
  rfl

/-- An exposure whose only detection, at (10.0005, 20.01) degrees, lies
inside the RA window of the witness target at (10, 20) degrees but outside
its Dec window: the filtered ra column is non-empty, yet the candidate pair
list is empty. -/
def raOnlyExp : exposure :=
  ⟨"2009170043915", ⟨2009, 170, 4, 39, 15⟩, [⟨1, 0, 0, 1000050000, 2001000000⟩]⟩

/-- Witness for C5: a concrete target whose candidate set is empty in the
one exposure although one filtered column is non-empty. -/
theorem C5_witness :
    (∀ ex ∈ [raOnlyExp],
      detectionsOf 100000 ((1000000000 : ℤ), (2000000000 : ℤ)).1
        ((1000000000 : ℤ), (2000000000 : ℤ)).2 ex.source_table = []) ∧
    (targetStep 500000 100000 [] [raOnlyExp] (1000000000, 2000000000)
        = .ok ⟨none, none, none, none, []⟩ ∧
     buildLCLiteral 100000 ((1000000000 : ℤ), (2000000000 : ℤ)).1
        ((1000000000 : ℤ), (2000000000 : ℤ)).2 [] [raOnlyExp] = .ok []) :=
  ⟨by decide,
   C5_no_candidates_no_output 500000 100000 [] [raOnlyExp] (1000000000, 2000000000) (by decide)⟩

/-- One detection at (120.5005, -45.2495) degrees with flux 50, inside both
windows of the first c7KIC target. -/
def c7tbl : List SrcRow := [⟨50, 1, 1, 12050050000, -4524950000⟩]

def c7exp : exposure := ⟨"2009170043915", ⟨2009, 170, 4, 39, 15⟩, c7tbl⟩

/-- Three catalog rows, at (120.5, -45.25), (7, 8) and (9, 10) degrees. -/
def c7KIC : List (ℤ × ℤ) :=
  [(12050000000, -4525000000), (700000000, 800000000), (900000000, 1000000000)]

/-- C7 (code bug demonstration): for the first catalog target, whose light
curve is non-empty, the record is stored under the LAST EXPOSURE's date
string (the loop variable of line 87 shadows the identity string of line
83), the stored catalog row is KIC[2] = (9, 10) degrees rather than the
target's own row, and the plot title and file also use the shadowed name;
the identity string of the target is a different string.  (In a literal run
line 114 would raise TypeError and line 118 AttributeError before any file
is saved; the model records the names and row those lines reference.) -/
theorem C7_shadowed_identity :
    targetStep 500000 100000 c7KIC [c7exp] (12050000000, -4525000000)
      = .ok ⟨some "2009170043915", some (900000000, 1000000000), some "2009170043915",
             some "./plots/2009170043915.png", [(⟨2009, 170, 4, 39, 15⟩, 50)]⟩ ∧
    identityName 12050000000 (-4525000000) = "120.50000000-045.25000000" ∧
    ("2009170043915" : String) ≠ "120.50000000-045.25000000" ∧
    (((900000000 : ℤ), (1000000000 : ℤ)) ≠ ((12050000000 : ℤ), (-4525000000 : ℤ))) :=
  ⟨by rfl, by rfl, by decide, by decide⟩

/-! ### The detection threshold of exposure.extension, lines 151 and 188

The parameter default is the empty string (line 151); line 188 replaces the
argument by the image mean of the SNR-derived detect_threshold whenever the
argument is falsy under Python not — which is the case both for the empty
string default and for a supplied value of 0.0. -/

/-- The threshold argument: the empty-string default of line 151, or a
caller-supplied number. -/
inductive ThresholdArg where
  | defaultStr
  | value (q : ℤ)
deriving DecidableEq

/-- Line 188: the threshold actually used, given the derived image mean of
detect_threshold.  Python not is true on the empty string and on 0.0. -/
def extensionThreshold : ThresholdArg → ℤ → ℤ
  | .defaultStr, derived => derived
  | .value q, derived => if q = 0 then derived else q

/-- C8 counterexample: a caller-supplied threshold of zero is NOT used
as-is; with a derived mean of 7 the threshold used is 7, not the supplied
0, because 0.0 is falsy under the line 188 test. -/
theorem C8_counterexample :
    extensionThreshold (ThresholdArg.value 0) 7 = 7 ∧
    extensionThreshold (ThresholdArg.value 0) 7 ≠ 0 := by
  decide

/-- C8 (amended): the threshold used equals the caller-supplied argument
whenever that argument is a nonzero value, and equals the derived image
mean of the SNR-based detect_threshold when no threshold is given or when
the supplied value is zero (a supplied zero is falsy under the code's
truthiness test and is replaced by the derived mean). -/
theorem C8_threshold_amended (q d : ℤ) (hq : q ≠ 0) :
    extensionThreshold (ThresholdArg.value q) d = q ∧
    extensionThreshold (ThresholdArg.value 0) d = d ∧
    extensionThreshold ThresholdArg.defaultStr d = d := by
  refine ⟨?_, ?_, rfl⟩
  · simp [extensionThreshold, hq]
  · simp [extensionThreshold]

/-- Witness for C8: the amended behaviour at threshold 5 and derived
mean 7. -/
theorem C8_threshold_witness :
    ((5 : ℤ) ≠ 0) ∧
    (extensionThreshold (ThresholdArg.value 5) 7 = 5 ∧
     extensionThreshold (ThresholdArg.value 0) 7 = 7 ∧
     extensionThreshold ThresholdArg.defaultStr 7 = 7) :=
  ⟨by norm_num, C8_threshold_amended 5 7 (by norm_num)⟩

end AperturePhot
